import Mathlib

/-!
Shallow embedding of `meal.py` (hansae-mju-meal): the extraction pipeline
`parse_html` (locator + row extractor) and the renderer `generate_html`.

The HTML parse tree produced by BeautifulSoup is modelled structurally:
a cell is the list of its text fragments (`get_text(sep, strip=...)`
joins fragments with `sep`, and with `strip=True` each fragment is
stripped and empty fragments are dropped); a `tr` carries its first
`th` (if any) and its `td` list; a table carries its `id` and `summary`
attributes, its `caption` and its row list (the `tr`s of
`table.find("tbody") or table`); a document carries the optional
`div.scedule .date` element and its tables in document order.

Python string primitives are re-implemented by structural recursion on
`List Char` so that every definition evaluates inside the kernel:
`strip` (ASCII whitespace, matching `Char.isWhitespace`), `split("\n")`,
substring containment, and code-point lexicographic comparison.
`re.search(r"(\d{2}\.\d{2})\s*\((.)\)", s)` is modelled by a leftmost
scan; `\d` is modelled by `Char.isDigit` and `\s` by `Char.isWhitespace`
(the ASCII core of the Python classes).
-/

/-- Strip leading and trailing whitespace characters, as `str.strip()`. -/
def trimChars (cs : List Char) : List Char :=
  ((cs.dropWhile Char.isWhitespace).reverse.dropWhile Char.isWhitespace).reverse

/-- String-level wrapper for `trimChars`, modelling Python `str.strip()`. -/
def strim (s : String) : String := ⟨trimChars s.data⟩

/-- Model of Python `s.split("\n")`: split at every newline, keeping empty pieces. -/
def splitNlChars : List Char → List (List Char)
  | [] => [[]]
  | c :: cs =>
    match splitNlChars cs with
    | h :: t => if c = '\n' then [] :: h :: t else (c :: h) :: t
    | [] => [[c]]

/-- String-level wrapper for `splitNlChars`. -/
def splitLines (s : String) : List String := (splitNlChars s.data).map String.mk

/-- Model of Python `needle in hay` on strings (contiguous substring test). -/
def containsSub (needle : List Char) : List Char → Bool
  | [] => needle.isEmpty
  | c :: cs => needle.isPrefixOf (c :: cs) || containsSub needle cs

/-- Code-point lexicographic `<=` on strings, as Python string comparison. -/
def strLeChars : List Char → List Char → Bool
  | [], _ => true
  | _ :: _, [] => false
  | a :: as, b :: bs => if a = b then strLeChars as bs else decide (a < b)

/-- A table cell or text-bearing element: the list of its text fragments
(adjacent fragments are separated by markup such as `<br>`). -/
structure Cell where
  frags : List String
deriving DecidableEq, Repr

/-- Model of BeautifulSoup `get_text(sep, strip=True)`: each fragment is
stripped, empty fragments are dropped, and the rest are joined by `sep`. -/
def getTextSep (sep : String) (c : Cell) : String :=
  String.intercalate sep ((c.frags.map strim).filter (fun s => ¬ s = ""))

/-- Model of BeautifulSoup `get_text()` with default arguments: plain
concatenation of all text fragments. -/
def getTextRaw (c : Cell) : String := String.join c.frags

/-- One `tr` of the schedule table: its first `th` descendant (if any,
as found by `tr.find("th")`) and its `td` list (`tr.find_all("td")`). -/
structure Tr where
  th : Option Cell
  tds : List Cell
deriving DecidableEq, Repr

/-- One `table` node: its `id` and `summary` attributes, its `caption`
(if any), and the `tr` sequence of `table.find("tbody") or table`. -/
structure Table where
  id : Option String
  summary : Option String
  caption : Option Cell
  rows : List Tr
deriving DecidableEq, Repr

/-- A parsed document: the optional `div.scedule .date` element and the
tables of the document in document order (`soup.find_all("table")`). -/
structure Doc where
  dateEl : Option Cell
  tables : List Table
deriving DecidableEq, Repr

/-- One extracted menu record, as the dicts appended to `menus` in
`parse_html`: `md` and `weekday` are `None` until a first header row is
seen, hence `Option String`. -/
structure Menu where
  md : Option String
  weekday : Option String
  meal : String
  title : String
  items : List String
  info : String
deriving DecidableEq, Repr

/-- Locator strategy 1: `soup.find("table", id="listTable")`. -/
def matchesId (t : Table) : Bool := t.id == some "listTable"

/-- Locator strategy 2: `soup.find("table", summary=lambda s: s and
"일주일간의 식단을" in s)` — the summary attribute is present, truthy, and
contains the marker phrase. -/
def matchesSummary (t : Table) : Bool :=
  match t.summary with
  | some s => !(s == "") && containsSub "일주일간의 식단을".data s.data
  | none => false

/-- Locator strategy 3: the table has a `caption` whose `get_text()`
contains the marker phrase "일주일간 식단 안내". -/
def matchesCaption (t : Table) : Bool :=
  match t.caption with
  | some cap => containsSub "일주일간 식단 안내".data (getTextRaw cap).data
  | none => false

/-- The locator of `parse_html` (meal.py lines 60-71): try the fixed id,
then the summary attribute, then the first caption containing the marker
phrase; first success wins. -/
def locate_table (d : Doc) : Option Table :=
  match d.tables.find? matchesId with
  | some t => some t
  | none =>
    match d.tables.find? matchesSummary with
    | some t => some t
    | none => d.tables.find? matchesCaption

/-- Attempt of `re.search(r"(\d{2}\.\d{2})\s*\((.)\)", _)` anchored at the
head of the character list: two digits, a dot, two digits, optional
whitespace, then a parenthesised single non-newline character; on success
returns the two captured groups. -/
def matchDateAt : List Char → Option (String × String)
  | d1 :: d2 :: dot :: d3 :: d4 :: rest =>
    if d1.isDigit && d2.isDigit && dot == '.' && d3.isDigit && d4.isDigit then
      match rest.dropWhile Char.isWhitespace with
      | '(' :: w :: ')' :: _ =>
        if w == '\n' then none else some (⟨[d1, d2, '.', d3, d4]⟩, ⟨[w]⟩)
      | _ => none
    else none
  | _ => none

/-- Model of `re.search(r"(\d{2}\.\d{2})\s*\((.)\)", s)`: leftmost match of
the date pattern, returning the captured `(month-day, weekday)` groups. -/
def reSearchDate : List Char → Option (String × String)
  | [] => none
  | c :: cs =>
    match matchDateAt (c :: cs) with
    | some r => some r
    | none => reSearchDate cs

/-- The date/weekday update performed on one row (meal.py lines 93-101):
if the row has a `th`, its text (`get_text(" ", strip=True)`) is searched
for the date pattern; on a match the carried pair becomes the captured
groups, otherwise it becomes `(stripped text, "")`; with no `th` the
carried pair is unchanged. -/
def updateDay (cur : Option String × Option String) (tr : Tr) :
    Option String × Option String :=
  match tr.th with
  | none => cur
  | some th =>
    let date_text := getTextSep " " th
    match reSearchDate date_text.data with
    | some (mdv, wdv) => (some mdv, some wdv)
    | none => (some (strim date_text), some "")

/-- The item list computed from the content cell (meal.py lines 111-112):
`get_text("\n", strip=True)`, split on newlines, each line stripped,
empty lines dropped. -/
def contentItems (c : Cell) : List String :=
  ((splitLines (getTextSep "\n" c)).map strim).filter (fun l => ¬ l = "")

/-- Processing of one `tr` (meal.py lines 85-127): returns the carried
state seen by the next row and the record emitted for this row, if any.
A row with neither `td` nor `th` is skipped; otherwise the day state is
updated, rows with fewer than four `td`s emit nothing, and a full row
emits one record, promoting the first item to the title when the title
cell text is exactly "-". -/
def processRow (cur : Option String × Option String) (tr : Tr) :
    (Option String × Option String) × Option Menu :=
  if tr.tds.isEmpty && tr.th.isNone then (cur, none)
  else
    let cur' := updateDay cur tr
    match tr.tds with
    | t0 :: t1 :: t2 :: t3 :: _ =>
      let meal_type := getTextSep "" t0
      let title0 := getTextSep "" t1
      let info := getTextSep "" t3
      let items0 := contentItems t2
      let ti : String × List String :=
        if title0 = "-" then
          match items0 with
          | i :: rest => (i, rest)
          | [] => (title0, items0)
        else (title0, items0)
      (cur', some { md := cur'.1, weekday := cur'.2, meal := meal_type,
                    title := ti.1, items := ti.2, info := info })
    | _ => (cur', none)

/-- The row-extraction loop of `parse_html` (meal.py lines 85-127): fold
`processRow` over the rows, collecting the emitted records in order. -/
def extractRows (cur : Option String × Option String) : List Tr → List Menu
  | [] => []
  | tr :: rest =>
    match processRow cur tr with
    | (cur', some m) => m :: extractRows cur' rest
    | (cur', none) => extractRows cur' rest

/-- `parse_html` (meal.py lines 33-129): extract the week-range label from
`div.scedule .date` (independently of the table), locate the schedule
table, and on success run the row extractor starting from the undefined
day state `(None, None)`; if no table is found return the empty list. -/
def parse_html (d : Doc) : Option String × List Menu :=
  let week_range := d.dateEl.map (getTextSep "")
  match locate_table d with
  | none => (week_range, [])
  | some table => (week_range, extractRows (none, none) table.rows)

/-- The CSS stylesheet block appended verbatim inside `<style>` by
`generate_html` (the first raw string in meal.py). -/
def cssBlock : String :=
  "\n:root \x7b\n  --mju-blue: #005a9c;\n  --mju-blue-light: #e3f2fd;\n  --card-radius: 10px;\n\x7d\n\n/* Reset-ish */\n* \x7b box-sizing: border-box; \x7d\n\nbody \x7b \n  font-family: \x27Pretendard\x27, -apple-system, BlinkMacSystemFont, \"Segoe UI\", Roboto,\n               \"Helvetica Neue\", Arial, \"Noto Sans\", sans-serif, \"Apple Color Emoji\",\n               \"Segoe UI Emoji\", \"Segoe UI Symbol\", \"Noto Color Emoji\";\n  max-width: 1000px; \n  margin: 0 auto; \n  padding: 16px; \n  background: #f0f2f5; \n  color: #333;\n\x7d\n\nh1 \x7b \n  font-size: 2.0rem; \n  color: #2c3e50; \n  margin-bottom: 0.5rem; \n  text-align: center;\n\x7d\n\n.meta \x7b \n  color: #7f8c8d; \n  font-size: 0.9rem; \n  text-align: center; \n  margin-bottom: 1.0rem; \n  line-height: 1.4;\n\x7d\n\n.today-summary \x7b\n  font-size: 0.9rem;\n  margin: 0 auto 1.2rem auto;\n  padding: 8px 10px;\n  border-radius: 8px;\n  background: #fff8e1;\n  border: 1px solid #ffe082;\n  max-width: 600px;\n\x7d\n\n/* 전체 레이아웃: 상단/좌측 요일 탭 + 우측 패널 */\n.week-layout \x7b\n  display: flex;\n  flex-direction: column;\n  gap: 12px;\n\x7d\n\n/* 요일 탭 영역 */\n.day-tabs \x7b\n  display: flex;\n  gap: 8px;\n  overflow-x: auto;\n  padding-bottom: 6px;\n  margin-bottom: 10px;  /* 살짝 더 여유 */\n  border-bottom: 1px solid #e0e0e0;\n\x7d\n\n.day-tabs::-webkit-scrollbar \x7b\n  height: 4px;\n\x7d\n.day-tabs::-webkit-scrollbar-thumb \x7b\n  background: #ccc;\n  border-radius: 999px;\n\x7d\n\n/* 요일 탭 버튼 (크기 줄인 버전) */\n.day-tab \x7b\n  flex: 0 0 auto;\n  border: 1px solid #dde1e7;\n  border-radius: 8px;       /* 살짝 둥근 직사각형 */\n  padding: 4px 8px 6px 8px;\n  background: #ffffff;\n  cursor: pointer;\n  font-size: 0.85rem;\n  display: inline-flex;\n  flex-direction: column;\n  align-items: flex-start;\n  gap: 1px;\n  min-width: 64px;\n  transition: background 0.15s ease, border-color 0.15s ease,\n              transform 0.1s, box-shadow 0.1s;\n  color: #333;\n\x7d\n\n.day-tab:hover \x7b\n  background: #f5f7fb;\n  transform: translateY(-1px);\n\x7d\n\n.day-tab:active \x7b\n  transform: translateY(0);\n  box-shadow: inset 0 1px 2px rgba(0,0,0,0.08);\n\x7d\n\n.day-tab .weekday \x7b\n  font-weight: 600;\n  font-size: 0.80rem;\n  padding: 2px 8px;\n  border-radius: 999px;\n  background: #f1f5f9;\n  color: #111827;\n\x7d\n\n.day-tab .date \x7b\n  font-size: 0.72rem;\n  color: #6b7280;\n\x7d\n\n/* 오늘 요일 탭 표시 (선택 안 되어 있을 때) */\n.day-tab.is-today \x7b\n  border-color: #ef4444;          /* 빨간 테두리 */\n  background: #fff5f5;\n\x7d\n.day-tab.is-today .weekday \x7b\n  background: #fee2e2;\n  color: #b91c1c;\n\x7d\n\n/* 오늘 탭에 은은한 pulse 애니메이션 (선택 안 된 상태일 때만) */\n@keyframes pulse-border \x7b\n  0%   \x7b box-shadow: 0 0 0 0 rgba(239,68,68,0.45); \x7d\n  100% \x7b box-shadow: 0 0 0 7px rgba(239,68,68,0); \x7d\n\x7d\n\n.day-tab.is-today:not(.active) \x7b\n  animation: pulse-border 1.6s infinite;\n\x7d\n\n/* 현재 선택된 요일 탭(누른 상태) */\n.day-tab.active \x7b\n  background: var(--mju-blue);\n  border-color: var(--mju-blue);\n  color: #ffffff;\n\x7d\n.day-tab.active .weekday \x7b\n  background: #ffffff;\n  color: var(--mju-blue);\n\x7d\n.day-tab.active .date \x7b\n  color: #dbeafe;\n\x7d\n\n/* \"오늘 + 선택됨\"인 경우 → 파란 배경 + 빨간 테두리 */\n.day-tab.is-today.active \x7b\n  border-color: #ef4444;            /* 얇은 빨간 테두리 */\n  box-shadow: 0 0 0 1px #ef4444;    /* 살짝 더 강조 */\n  animation: none;                  /* pulse 중단 */\n\x7d\n\n/* 요일별 패널 영역 */\n.day-panels \x7b\n  margin-top: 12px;   /* 탭 아래 여백 늘림 (윗부분 잘려 보이는 느낌 완화) */\n\x7d\n\n/* 패널 입장 애니메이션 */\n@keyframes fade-slide \x7b\n  0%   \x7b opacity: 0; transform: translateY(6px); \x7d\n  100% \x7b opacity: 1; transform: translateY(0); \x7d\n\x7d\n\n.day-panel \x7b\n  display: none;\n\x7d\n\n.day-panel.active \x7b\n  display: block;\n  animation: fade-slide 0.28s ease-out;  /* 전환 속도 살짝 느리게 */\n\x7d\n\n.day-panel-header \x7b\n  display: flex;\n  justify-content: space-between;\n  align-items: baseline;\n  gap: 8px;\n  margin-bottom: 10px;  /* 헤더 아래도 여유 조금 추가 */\n\x7d\n\n.day-panel-header h2 \x7b\n  margin: 0;\n  font-size: 1.15rem;\n\x7d\n\n.day-panel-header .sub \x7b\n  font-size: 0.8rem;\n  color: #777;\n\x7d\n\n/* 끼니 카드 */\n.meal-card \x7b\n  background: #fff;\n  border-radius: var(--card-radius);\n  padding: 10px 12px;\n  margin-bottom: 10px;\n  box-shadow: 0 1px 3px rgba(0,0,0,0.06);\n  border: 1px solid #e5e7eb;\n  position: relative;\n  transition: transform 0.18s ease, box-shadow 0.18s ease;\n\x7d\n\n/* 카드 hover 애니메이션 */\n.meal-card:hover \x7b\n  transform: translateY(-2px);\n  box-shadow: 0 4px 10px rgba(0,0,0,0.12);\n\x7d\n\n/* 상단 색띠로 점심/저녁 구분 */\n.meal-card::before \x7b\n  content: \"\";\n  position: absolute;\n  top: 0;\n  left: 0;\n  height: 3px;\n  width: 100%;\n  border-radius: var(--card-radius) var(--card-radius) 0 0;\n  background: #e5e7eb;\n\x7d\n.meal-card.lunch::before \x7b\n  background: #facc15;  /* 노랑 (점심) */\n\x7d\n.meal-card.dinner::before \x7b\n  background: #6366f1;  /* 보라 (저녁) */\n\x7d\n\n.meal-card-header \x7b\n  display: flex;\n  justify-content: space-between;\n  align-items: center;\n  gap: 8px;\n  margin-bottom: 4px;\n\x7d\n\n.meal-type \x7b\n  font-weight: 600;\n  font-size: 0.95rem;\n  display: flex;\n  align-items: center;\n  gap: 4px;\n\x7d\n\n.meal-type .emoji \x7b\n  font-size: 1.1rem;\n\x7d\n\n.meal-info \x7b\n  font-size: 0.75rem;\n  color: #999;\n\x7d\n\n/* 메인디쉬 따로 박스 없이, 첫 줄만 살짝 강조 */\n.meal-items \x7b\n  margin: 4px 0 0 0;\n  padding-left: 18px;\n  font-size: 0.9rem;\n\x7d\n\n.meal-items li \x7b\n  margin: 2px 0;\n  color: #333;\n\x7d\n\n.meal-items li:first-child \x7b\n  font-weight: 600;\n  color: #111827;\n\x7d\n\n.no-menu \x7b\n  color: #999;\n  font-size: 0.9rem;\n\x7d\n\n/* 하단 푸터 */\nfooter \x7b\n  margin-top: 20px;\n  font-size: 0.8rem;\n  color: #777;\n  text-align: center;\n\x7d\n\n/* 데스크톱: 좌측 탭 / 우측 내용 2단 */\n@media (min-width: 900px) \x7b\n  .week-layout \x7b\n    flex-direction: row;\n    align-items: flex-start;\n  \x7d\n\n  .day-tabs \x7b\n    flex-direction: column;\n    border-bottom: none;\n    border-right: 1px solid #e0e0e0;\n    padding-right: 8px;\n    margin-right: 8px;\n    max-width: 150px;\n  \x7d\n\n  .day-tab \x7b\n    width: 100%;\n  \x7d\n\n  .day-panels \x7b\n    flex: 1;\n    padding-left: 8px;\n  \x7d\n\x7d\n"

/-- The script block appended verbatim by `generate_html` (the second
raw string in meal.py: tab behaviour and today-selection). -/
def jsBlock : String :=
  "\n<script>\ndocument.addEventListener(\x27DOMContentLoaded\x27, function() \x7b\n    try \x7b\n        const tabs = Array.from(document.querySelectorAll(\x27.day-tab\x27));\n        const panels = Array.from(document.querySelectorAll(\x27.day-panel\x27));\n        const summary = document.getElementById(\x27today-summary\x27);\n\n        if (tabs.length === 0 || panels.length === 0) \x7b\n            if (summary) \x7b\n                summary.textContent = \x27이번 주 식단 정보가 없습니다.\x27;\n            \x7d\n            return;\n        \x7d\n\n        // KST 기준 오늘 날짜 계산 → \"MM.DD\"\n        const now = new Date();\n        const utc = now.getTime() + now.getTimezoneOffset() * 60000;\n        const kst = new Date(utc + 9 * 3600 * 1000);\n        const month = String(kst.getMonth() + 1).padStart(2, \x270\x27);\n        const day = String(kst.getDate()).padStart(2, \x270\x27);\n        const todayMD = \x60$\x7bmonth\x7d.$\x7bday\x7d\x60;\n\n        function setActive(dateStr) \x7b\n            tabs.forEach(tab => \x7b\n                tab.classList.toggle(\x27active\x27, tab.dataset.date === dateStr);\n            \x7d);\n            panels.forEach(panel => \x7b\n                panel.classList.toggle(\x27active\x27, panel.dataset.date === dateStr);\n            \x7d);\n        \x7d\n\n        // 기본 활성 날짜: 오늘이 있으면 오늘, 없으면 첫 번째\n        let activeDate = null;\n        const todayTab = document.querySelector(\x60.day-tab[data-date=\"$\x7btodayMD\x7d\"]\x60);\n        if (todayTab) \x7b\n            activeDate = todayMD;\n        \x7d else \x7b\n            activeDate = tabs[0].dataset.date;\n        \x7d\n\n        setActive(activeDate);\n\n        // 오늘 요일 탭 표시 + 안내 문구\n        if (todayTab) \x7b\n            todayTab.classList.add(\x27is-today\x27);\n            if (summary) \x7b\n                summary.textContent = \x60오늘은 $\x7bmonth\x7d월 $\x7bday\x7d일입니다. 해당 요일은 빨간색으로 표시되어 있습니다!\x60;\n            \x7d\n        \x7d else if (summary) \x7b\n            summary.textContent = \x27오늘 날짜는 이번 주 식단 범위에 없어서, 첫 번째 요일이 기본으로 선택되었습니다.\x27;\n        \x7d\n\n        // 탭 클릭 이벤트\n        tabs.forEach(tab => \x7b\n            tab.addEventListener(\x27click\x27, () => \x7b\n                const dateStr = tab.dataset.date;\n                setActive(dateStr);\n            \x7d);\n        \x7d);\n    \x7d catch (e) \x7b\n        console.error(\x27Error initializing tabs:\x27, e);\n    \x7d\n\x7d);\n</script>\n"

/-- Model of `html.escape(c, quote=True)` on one character. -/
def escChar (c : Char) : String :=
  if c = '&' then "&amp;"
  else if c = '<' then "&lt;"
  else if c = '>' then "&gt;"
  else if c = '"' then "&quot;"
  else if c = '\x27' then "&#x27;"
  else String.mk [c]

/-- Model of `html.escape(s, quote=True)`. -/
def escStr (s : String) : String := String.join (s.data.map escChar)

/-- The `esc` helper of `generate_html`: `html.escape(s if s is not None
else "", quote=True)`. -/
def esc (s : Option String) : String := escStr (s.getD "")

/-- Python truthiness test on an optional string: `None` and `""` are falsy. -/
def pyFalsy : Option String → Bool
  | none => true
  | some s => s == ""

/-- The sort key `lambda x: x[0] or ""` used on the grouped day keys. -/
def pyKey (k : Option String × Option String) : String := k.1.getD ""

/-- Key comparison used by `sorted`: Python code-point string `<=` on the
extracted keys. -/
def keyLe (a b : Option String × Option String) : Bool :=
  strLeChars (pyKey a).data (pyKey b).data

/-- Stable insertion of one key into an already sorted key list: the new
key goes before the first strictly larger key and after equal ones that
came earlier, matching the stability of Python `sorted`. -/
def insertSorted (x : Option String × Option String) :
    List (Option String × Option String) → List (Option String × Option String)
  | [] => [x]
  | y :: ys => if keyLe x y then x :: y :: ys else y :: insertSorted x ys

/-- Stable sort of the day keys by `lambda x: x[0] or ""`, modelling
`sorted(grouped.keys(), key=...)`. -/
def sortKeys : List (Option String × Option String) →
    List (Option String × Option String)
  | [] => []
  | k :: ks => insertSorted k (sortKeys ks)

/-- The keys of `grouped` in insertion order: first occurrence of each
`(md, weekday)` pair over the menu list, as dict key order in Python. -/
def groupKeys (menus : List Menu) : List (Option String × Option String) :=
  menus.foldl
    (fun acc m =>
      if acc.contains (m.md, m.weekday) then acc else acc ++ [(m.md, m.weekday)])
    []

/-- The bucket `grouped[(md, weekday)]`: the menus carrying that key, in
their original order. -/
def grouped (menus : List Menu) (k : Option String × Option String) : List Menu :=
  menus.filter (fun m => (m.md, m.weekday) == k)

/-- `day_keys = sorted(grouped.keys(), key=lambda x: x[0] or "")`. -/
def dayKeys (menus : List Menu) : List (Option String × Option String) :=
  sortKeys (groupKeys menus)

/-- The meta line of the generated page: week range (when truthy) plus
the last-updated timestamp. -/
def metaLine (updated_kst : String) (week_range : Option String) : String :=
  match week_range with
  | some wr =>
    if wr = "" then "마지막 업데이트: " ++ updated_kst ++ " (KST)"
    else "<span>" ++ esc (some wr) ++ "</span> · 마지막 업데이트: " ++
      updated_kst ++ " (KST)"
  | none => "마지막 업데이트: " ++ updated_kst ++ " (KST)"

/-- One day-tab button element of the generated page. -/
def dayTabPart (k : Option String × Option String) : String :=
  "<button class=\"day-tab\" type=\"button\" data-date=\"" ++ esc k.1 ++ "\">" ++
  "<span class=\"weekday\">" ++ esc k.2 ++ "요일</span>" ++
  "<span class=\"date\">" ++ esc k.1 ++ "</span>" ++
  "</button>"

/-- The day-tab loop: one button per day key, skipping falsy `md` keys
(`if not md: continue`). -/
def dayTabsParts (keys : List (Option String × Option String)) : List String :=
  (keys.filter (fun k => !pyFalsy k.1)).map dayTabPart

/-- The parts appended for one meal card of a day panel. -/
def mealCardParts (mdv : Option String) (m : Menu) : List String :=
  let meal_emoji := if m.meal = "점심" then "☀️" else "🌙"
  let meal_class := if m.meal = "점심" then "lunch" else "dinner"
  let info := strim m.info
  let title := strim m.title
  let full_items := (if ¬ title = "" ∧ ¬ title = "-" then [title] else []) ++ m.items
  ["<article class=\"meal-card " ++ meal_class ++ "\" data-date=\"" ++
      esc mdv ++ "\">",
    "<div class=\"meal-card-header\">",
    "<div class=\"meal-type\">",
    "<span class=\"emoji\">" ++ meal_emoji ++ "</span>",
    "<span class=\"label\">" ++ esc (some m.meal) ++ "</span>",
    "</div>"]
  ++ (if ¬ info = "" ∧ ¬ info = "-" then
        ["<div class=\"meal-info\">" ++ esc (some info) ++ "</div>"]
      else [])
  ++ ["</div>"]
  ++ (if full_items.isEmpty then ["<p class=\"no-menu\">세부 메뉴 없음</p>"]
      else ["<ul class=\"meal-items\">"] ++
        full_items.map (fun it => "<li>" ++ esc (some it) ++ "</li>") ++
        ["</ul>"])
  ++ ["</article>"]

/-- The parts appended for one day panel. -/
def dayPanelParts (menus : List Menu) (k : Option String × Option String) :
    List String :=
  ["<section class=\"day-panel\" data-date=\"" ++ esc k.1 ++ "\">",
    "<div class=\"day-panel-header\">",
    "<h2>" ++ esc k.1 ++ " " ++ esc k.2 ++ "요일</h2>",
    "<span class=\"sub\">점심 · 저녁 식단</span>",
    "</div>"]
  ++ (let day_menus := grouped menus k
      if day_menus.isEmpty then ["<p class=\"no-menu\">등록된 메뉴가 없습니다.</p>"]
      else (day_menus.map (mealCardParts k.1)).flatten)
  ++ ["</section>"]

/-- The day-panel loop: panels per day key, skipping falsy `md` keys. -/
def dayPanelsParts (menus : List Menu)
    (keys : List (Option String × Option String)) : List String :=
  ((keys.filter (fun k => !pyFalsy k.1)).map (dayPanelParts menus)).flatten

/-- Model of `"\n".join(parts)`. -/
def joinLines : List String → String
  | [] => ""
  | [x] => x
  | x :: y :: rest => x ++ "\n" ++ joinLines (y :: rest)

/-- `generate_html` (meal.py lines 134-507): assemble the output document
from the parts list. The last-updated timestamp, computed in the source
from the current UTC clock shifted to KST, is modelled as the explicit
first argument `updated_kst`. -/
def generate_html (updated_kst : String) (week_range : Option String)
    (menus : List Menu) : String :=
  let keys := dayKeys menus
  joinLines
    (["<!doctype html>",
      "<html lang=\"ko\">",
      "<head>",
      "  <meta charset=\"utf-8\">",
      "  <title>명지대 자연캠 교직원식당 식단</title>",
      "  <meta name=\"viewport\" content=\"width=device-width, initial-scale=1\">",
      "  <link rel=\"stylesheet\" href=\"https://cdn.jsdelivr.net/gh/orioncactus/pretendard/dist/web/static/pretendard.css\">",
      "  <style>",
      cssBlock,
      "  </style>",
      "</head>",
      "<body>",
      "<h1>🍽️ 교직원 식단 메뉴</h1>",
      "<p class=\"meta\">" ++ metaLine updated_kst week_range ++ "</p>",
      "<div id=\"today-summary\" class=\"today-summary\"></div>",
      "<div class=\"week-layout\">",
      "<div class=\"day-tabs\" id=\"day-tabs\">"]
    ++ dayTabsParts keys
    ++ ["</div>",
        "<div class=\"day-panels\" id=\"day-panels\">"]
    ++ dayPanelsParts menus keys
    ++ ["</div>",
        "</div>",
        "<footer>made by 권민관 for Hansae</footer>",
        jsBlock,
        "</body></html>"])

/-- Concrete header-only row "11.10  (월)" with no data cells. -/
def trHdrOnly : Tr := ⟨some ⟨["11.10  (월)"]⟩, []⟩

/-- Concrete full data row for the spec's title-fallback example. -/
def trFallback : Tr :=
  ⟨none, [⟨["점심"]⟩, ⟨["-"]⟩, ⟨["된장찌개", "김치", "밥"]⟩, ⟨["-"]⟩]⟩

/-- Concrete document: a `listTable` whose single data row has title cell
"-" and an empty content cell. -/
def docDashEmpty : Doc :=
  ⟨none, [⟨some "listTable", none, none,
    [⟨none, [⟨["점심"]⟩, ⟨["-"]⟩, ⟨[]⟩, ⟨["-"]⟩]⟩]⟩]⟩

/-- Concrete document: a `listTable` whose single data row precedes any
header row, so the record carries no date. -/
def docDateless : Doc :=
  ⟨none, [⟨some "listTable", none, none,
    [⟨none, [⟨["점심"]⟩, ⟨["국수"]⟩, ⟨["김치"]⟩, ⟨["-"]⟩]⟩]⟩]⟩

/-- The record extracted from `docDateless`. -/
def menuDateless : Menu := ⟨none, none, "점심", "국수", ["김치"], "-"⟩

/-- Concrete document for the carry-forward example: header row "11.10
(월)" followed by a header-less data row. -/
def docWeek : Doc :=
  ⟨some ⟨["11.10 ~ 11.16"]⟩, [⟨some "listTable", none, none,
    [⟨some ⟨["11.10  (월)"]⟩, [⟨["점심"]⟩, ⟨["-"]⟩, ⟨["된장찌개", "김치", "밥"]⟩, ⟨["-"]⟩]⟩,
     ⟨none, [⟨["저녁"]⟩, ⟨["메인메뉴"]⟩, ⟨["비빔밥", "계란국"]⟩, ⟨["비고"]⟩]⟩]⟩]⟩

/-- Concrete document with one table matching none of the three locator
strategies. -/
def docNoMarker : Doc :=
  ⟨some ⟨["11.10 ~ 11.16"]⟩,
   [⟨some "otherTable", some "다른 표", some ⟨["주차장 안내"]⟩,
     [⟨none, [⟨["점심"]⟩, ⟨["국수"]⟩, ⟨["김치"]⟩, ⟨["-"]⟩]⟩]⟩]⟩

theorem processRow_fst (cur : Option String × Option String) (tr : Tr) :
    (processRow cur tr).1 = updateDay cur tr := by
  unfold processRow
  split
  · rename_i h
    have hth : tr.th = none := by
      cases h' : tr.th <;> simp [h'] at h ⊢
    simp [updateDay, hth]
  · dsimp only
    split <;> rfl

theorem processRow_emit (cur : Option String × Option String) (tr : Tr)
    (m : Menu) (h : (processRow cur tr).2 = some m) :
    m.md = (updateDay cur tr).1 ∧ m.weekday = (updateDay cur tr).2 := by
  unfold processRow at h
  split at h
  · simp at h
  · dsimp only at h
    split at h
    · simp only [Option.some.injEq] at h
      subst h
      constructor <;> rfl
    · simp at h

theorem updateDay_coupled (cur : Option String × Option String) (tr : Tr)
    (h : cur.1 = none ↔ cur.2 = none) :
    ((updateDay cur tr).1 = none ↔ (updateDay cur tr).2 = none) := by
  unfold updateDay
  split
  · exact h
  · dsimp only
    split <;> simp

theorem extractRows_coupled (trs : List Tr) :
    ∀ cur : Option String × Option String, (cur.1 = none ↔ cur.2 = none) →
      ∀ m ∈ extractRows cur trs, (m.md = none ↔ m.weekday = none) := by
  induction trs with
  | nil => intro cur _ m hm; simp [extractRows] at hm
  | cons tr rest ih =>
    intro cur h m hm
    have hcur' : ((processRow cur tr).1.1 = none ↔ (processRow cur tr).1.2 = none) := by
      rw [processRow_fst]
      exact updateDay_coupled cur tr h
    rcases hp : processRow cur tr with ⟨cur', m?⟩
    rw [hp] at hcur'
    cases m? with
    | none =>
      simp only [extractRows, hp] at hm
      exact ih cur' hcur' m hm
    | some m0 =>
      simp only [extractRows, hp] at hm
      rcases List.mem_cons.mp hm with hEq | hm'
      · subst hEq
        have := processRow_emit cur tr m (by rw [hp])
        rw [← processRow_fst] at this
        rw [hp] at this
        rw [this.1, this.2]
        exact hcur'
      · exact ih cur' hcur' m hm'

theorem mem_insertSorted (x y : Option String × Option String)
    (l : List (Option String × Option String)) (h : x ∈ insertSorted y l) :
    x = y ∨ x ∈ l := by
  induction l with
  | nil =>
    simp [insertSorted] at h
    exact Or.inl h
  | cons z zs ih =>
    unfold insertSorted at h
    split at h
    · rcases List.mem_cons.mp h with h1 | h1
      · exact Or.inl h1
      · exact Or.inr h1
    · rcases List.mem_cons.mp h with h1 | h1
      · exact Or.inr (List.mem_cons.mpr (Or.inl h1))
      · rcases ih h1 with h2 | h2
        · exact Or.inl h2
        · exact Or.inr (List.mem_cons.mpr (Or.inr h2))

theorem mem_sortKeys (x : Option String × Option String)
    (l : List (Option String × Option String)) (h : x ∈ sortKeys l) : x ∈ l := by
  induction l with
  | nil => simp [sortKeys] at h
  | cons z zs ih =>
    unfold sortKeys at h
    rcases mem_insertSorted x z (sortKeys zs) h with h1 | h1
    · exact List.mem_cons.mpr (Or.inl h1)
    · exact List.mem_cons.mpr (Or.inr (ih h1))

theorem mem_groupKeys_aux (menus : List Menu) :
    ∀ (acc : List (Option String × Option String)) (k : Option String × Option String),
      k ∈ menus.foldl
        (fun acc m =>
          if acc.contains (m.md, m.weekday) then acc else acc ++ [(m.md, m.weekday)]) acc →
      k ∈ acc ∨ ∃ m ∈ menus, k = (m.md, m.weekday) := by
  induction menus with
  | nil => intro acc k h; exact Or.inl h
  | cons m ms ih =>
    intro acc k h
    simp only [List.foldl_cons] at h
    rcases ih _ k h with h1 | h1
    · split at h1
      · exact Or.inl h1
      · rcases List.mem_append.mp h1 with h2 | h2
        · exact Or.inl h2
        · refine Or.inr ⟨m, List.mem_cons_self m ms, ?_⟩
          simpa using h2
    · rcases h1 with ⟨m0, hm0, hk⟩
      exact Or.inr ⟨m0, List.mem_cons.mpr (Or.inr hm0), hk⟩

theorem mem_dayKeys (menus : List Menu) (k : Option String × Option String)
    (h : k ∈ dayKeys menus) : ∃ m ∈ menus, k = (m.md, m.weekday) := by
  unfold dayKeys groupKeys at h
  rcases mem_groupKeys_aux menus [] k (mem_sortKeys k _ h) with h1 | h1
  · simp at h1
  · exact h1

theorem generate_html_all_falsy (t : String) (w : Option String)
    (menus : List Menu) (hall : ∀ m ∈ menus, pyFalsy m.md = true) :
    generate_html t w menus = generate_html t w [] := by
  have hkeys : ∀ k ∈ dayKeys menus, pyFalsy k.1 = true := by
    intro k hk
    rcases mem_dayKeys menus k hk with ⟨m, hm, hkm⟩
    rw [hkm]
    exact hall m hm
  have hfilter : (dayKeys menus).filter (fun k => !pyFalsy k.1) = [] := by
    rw [List.filter_eq_nil_iff]
    intro k hk
    simp [hkeys k hk]
  unfold generate_html dayTabsParts dayPanelsParts
  simp only [hfilter, List.map_nil, List.flatten_nil]
  rfl

/-- C1: for every table row processed by the row extractor, the carried
day state follows the three-case rule: a header cell matching the date
pattern sets the pair to the captured groups; a non-matching header cell
makes the trimmed header text the month-day with an empty weekday; a row
without a header cell leaves the carried pair unchanged, so one date
applies to all following header-less rows. -/
theorem row_day_state_rule (cur : Option String × Option String) (tr : Tr) :
    (∀ th, tr.th = some th →
      ∀ mdv wdv, reSearchDate (getTextSep " " th).data = some (mdv, wdv) →
        (processRow cur tr).1 = (some mdv, some wdv)) ∧
    (∀ th, tr.th = some th →
      reSearchDate (getTextSep " " th).data = none →
      ¬ getTextSep " " th = "" →
        (processRow cur tr).1 = (some (strim (getTextSep " " th)), some "")) ∧
    (tr.th = none → (processRow cur tr).1 = cur) := by
  refine ⟨?_, ?_, ?_⟩
  · intro th hth mdv wdv hre
    rw [processRow_fst]
    unfold updateDay
    rw [hth]
    simp only [hre]
  · intro th hth hre _
    rw [processRow_fst]
    unfold updateDay
    rw [hth]
    simp only [hre]
  · intro hth
    rw [processRow_fst]
    unfold updateDay
    rw [hth]

/-- C1 witness: the matching case evaluated on the concrete header row
"11.10  (월)". -/
theorem row_day_state_rule_witness :
    (processRow (none, none) trHdrOnly).1 = (some "11.10", some "월") :=
  (row_day_state_rule (none, none) trHdrOnly).1 ⟨["11.10  (월)"]⟩ rfl "11.10" "월" (by decide)

/-- C2: for every emitted row whose title cell text is exactly "-" and
whose content-cell line list is non-empty, the record's title is the
first line and its items are the remaining lines in order. -/
theorem title_fallback_rule (cur : Option String × Option String)
    (hd : Option Cell) (t0 t1 t2 t3 : Cell) (rest : List Cell)
    (i : String) (is : List String)
    (htitle : getTextSep "" t1 = "-")
    (hitems : contentItems t2 = i :: is) :
    ∃ m, (processRow cur ⟨hd, t0 :: t1 :: t2 :: t3 :: rest⟩).2 = some m ∧
      m.title = i ∧ m.items = is := by
  unfold processRow
  simp only [List.isEmpty_cons, Bool.false_and, if_neg Bool.false_ne_true]
  rw [htitle, hitems]
  simp

/-- C2 witness: the spec's example row with title cell "-" and content
lines 된장찌개, 김치, 밥. -/
theorem title_fallback_rule_witness :
    ∃ m, (processRow (none, none) trFallback).2 = some m ∧
      m.title = "된장찌개" ∧ m.items = ["김치", "밥"] :=
  title_fallback_rule (none, none) none ⟨["점심"]⟩ ⟨["-"]⟩ ⟨["된장찌개", "김치", "밥"]⟩ ⟨["-"]⟩ []
    "된장찌개" ["김치", "밥"] (by decide) (by decide)

/-- C5: in every extracted record the month-day and weekday are coupled:
one is `None` exactly when the other is (the meal field is a plain string
by construction). -/
theorem md_weekday_coupled (d : Doc) (m : Menu) (hm : m ∈ (parse_html d).2) :
    (m.md = none ↔ m.weekday = none) := by
  unfold parse_html at hm
  rcases h : locate_table d with _ | t
  · rw [h] at hm
    simp at hm
  · rw [h] at hm
    simp only at hm
    exact extractRows_coupled t.rows (none, none) (by simp) m hm

/-- C5 witness: the coupling evaluated on the record extracted from the
concrete date-less document. -/
theorem md_weekday_coupled_witness :
    ((⟨none, none, "점심", "국수", ["김치"], "-"⟩ : Menu).md = none ↔
      (⟨none, none, "점심", "국수", ["김치"], "-"⟩ : Menu).weekday = none) :=
  md_weekday_coupled docDateless ⟨none, none, "점심", "국수", ["김치"], "-"⟩ (by decide)

/-- C6 counterexample: a header-only row exposes fewer than four data
cells and emits no record, yet it does change the carried day state, so
the claim that the state is unchanged for every short row is false. -/
theorem short_row_state_counterexample :
    trHdrOnly.tds.length < 4 ∧
    (processRow (none, none) trHdrOnly).2 = none ∧
    ¬ (processRow (none, none) trHdrOnly).1 = (none, none) := by decide

/-- C6 amended: a row with fewer than four data cells emits no record,
and the carried state is unchanged provided the row also has no header
cell (a header cell still updates the day state). -/
theorem short_row_no_record (cur : Option String × Option String) (tr : Tr)
    (h : tr.tds.length < 4) :
    (processRow cur tr).2 = none ∧
    (tr.th = none → (processRow cur tr).1 = cur) := by
  obtain ⟨th, tds⟩ := tr
  simp only at h
  constructor
  · rcases tds with _ | ⟨a, _ | ⟨b, _ | ⟨c, _ | ⟨e, rest⟩⟩⟩⟩
    · unfold processRow
      split <;> rfl
    · unfold processRow
      split <;> rfl
    · unfold processRow
      split <;> rfl
    · unfold processRow
      split <;> rfl
    · simp only [List.length_cons] at h
      omega
  · intro hth
    rw [processRow_fst]
    unfold updateDay
    rw [hth]

/-- C6 witness: a one-cell header-less row emits nothing and preserves
the carried date. -/
theorem short_row_no_record_witness :
    (processRow (some "11.10", some "월") ⟨none, [⟨["점심"]⟩]⟩).2 = none ∧
    (Tr.th ⟨none, [⟨["점심"]⟩]⟩ = none →
      (processRow (some "11.10", some "월") ⟨none, [⟨["점심"]⟩]⟩).1 = (some "11.10", some "월")) :=
  short_row_no_record (some "11.10", some "월") ⟨none, [⟨["점심"]⟩]⟩ (by decide)

/-- C8: extraction is deterministic — two runs of `parse_html` on the
identical document yield identical (week label, records) pairs. -/
theorem parse_html_deterministic (d1 d2 : Doc) (h : d1 = d2) :
    parse_html d1 = parse_html d2 := by rw [h]

/-- C8 witness: determinism evaluated on the concrete week document. -/
theorem parse_html_deterministic_witness :
    parse_html docWeek = parse_html docWeek :=
  parse_html_deterministic docWeek docWeek rfl

/-- C10: `parse_html` is total — on every document it returns a pair of
an optional week label and a record list; in the embedding no input can
raise or diverge. -/
theorem parse_html_total (d : Doc) :
    ∃ (wr : Option String) (ms : List Menu), parse_html d = (wr, ms) :=
  ⟨(parse_html d).1, (parse_html d).2, rfl⟩

/-- C3 counterexample: when the title cell is "-" and the content cell
yields no lines, the fallback does not fire and the emitted record's
title is the literal placeholder "-", so "title is never the literal
placeholder" is false. -/
theorem title_dash_counterexample :
    (parse_html docDashEmpty).2 = [⟨none, none, "점심", "-", [], "-"⟩] := by decide

/-- C3 amended: an emitted record's title is "-" exactly when the title
cell text is "-" and the content-cell line list is empty or itself
begins with "-"; in every other case the title is not the placeholder. -/
theorem title_dash_characterization (cur : Option String × Option String)
    (hd : Option Cell) (t0 t1 t2 t3 : Cell) (rest : List Cell) (m : Menu)
    (hm : (processRow cur ⟨hd, t0 :: t1 :: t2 :: t3 :: rest⟩).2 = some m) :
    (m.title = "-" ↔
      (getTextSep "" t1 = "-" ∧
        (contentItems t2 = [] ∨ (contentItems t2).head? = some "-"))) := by
  unfold processRow at hm
  simp only [List.isEmpty_cons, Bool.false_and, if_neg Bool.false_ne_true,
    Option.some.injEq] at hm
  by_cases h1 : getTextSep "" t1 = "-"
  · rcases h2 : contentItems t2 with _ | ⟨i, is⟩
    · rw [h1, h2] at hm
      simp at hm
      subst hm
      simp [h1, h2]
    · rw [h1, h2] at hm
      simp at hm
      subst hm
      simp [h1, h2]
  · rw [if_neg h1] at hm
    subst hm
    simp [h1]

/-- C3 witness: the characterization evaluated on the concrete row with
title cell "-" and an empty content cell. -/
theorem title_dash_characterization_witness :
    ((⟨none, none, "점심", "-", [], "-"⟩ : Menu).title = "-" ↔
      (getTextSep "" ⟨["-"]⟩ = "-" ∧
        (contentItems ⟨[]⟩ = [] ∨ (contentItems ⟨[]⟩).head? = some "-"))) :=
  title_dash_characterization (none, none) none ⟨["점심"]⟩ ⟨["-"]⟩ ⟨[]⟩ ⟨["-"]⟩ []
    ⟨none, none, "점심", "-", [], "-"⟩ (by decide)

/-- C4: the locator tries the fixed id, the summary marker, and the
caption marker in strict order and returns the first table matched; when
no strategy matches any table it returns `none` and `parse_html` yields
the week label with an empty record list instead of an error. -/
theorem locator_fallback_chain (d : Doc) :
    ((∀ t ∈ d.tables, matchesId t = false ∧ matchesSummary t = false ∧ matchesCaption t = false) →
      locate_table d = none ∧ parse_html d = (d.dateEl.map (getTextSep ""), [])) ∧
    (∀ t, d.tables.find? matchesId = some t → locate_table d = some t) ∧
    (d.tables.find? matchesId = none →
      ∀ t, d.tables.find? matchesSummary = some t → locate_table d = some t) ∧
    (d.tables.find? matchesId = none → d.tables.find? matchesSummary = none →
      ∀ t, d.tables.find? matchesCaption = some t → locate_table d = some t) := by
  refine ⟨?_, ?_, ?_, ?_⟩
  · intro hall
    have h1 : d.tables.find? matchesId = none := by
      rw [List.find?_eq_none]
      intro t ht
      simp [(hall t ht).1]
    have h2 : d.tables.find? matchesSummary = none := by
      rw [List.find?_eq_none]
      intro t ht
      simp [(hall t ht).2.1]
    have h3 : d.tables.find? matchesCaption = none := by
      rw [List.find?_eq_none]
      intro t ht
      simp [(hall t ht).2.2]
    have hloc : locate_table d = none := by
      unfold locate_table
      rw [h1, h2, h3]
    refine ⟨hloc, ?_⟩
    simp only [parse_html, hloc]
  · intro t ht
    unfold locate_table
    rw [ht]
  · intro h1 t ht
    unfold locate_table
    rw [h1, ht]
  · intro h1 h2 t ht
    unfold locate_table
    rw [h1, h2, ht]

/-- C4 witness: evaluated on a concrete document whose only table has a
different id, a summary without the marker phrase, and a caption without
the marker phrase. -/
theorem locator_fallback_chain_witness :
    locate_table docNoMarker = none ∧
    parse_html docNoMarker = (docNoMarker.dateEl.map (getTextSep ""), []) :=
  (locator_fallback_chain docNoMarker).1 (by decide)

/-- C7 counterexample: the date-less document yields one record with
`md = none`, but rendering that record produces exactly the same output
document as rendering no records at all — the missing-key group is
discarded from the output, not kept. -/
theorem dateless_dropped_counterexample :
    (parse_html docDateless).2 = [menuDateless] ∧
    menuDateless.md = none ∧
    generate_html "2025-11-10 12:00" none [menuDateless] =
      generate_html "2025-11-10 12:00" none [] :=
  ⟨by decide, rfl, rfl⟩

/-- C7 amended: a record is still emitted for a four-cell header-less row
even when the carried month-day is absent, and downstream grouping does
bucket it under its missing key, but the renderer skips every group whose
month-day is empty or absent, so such records contribute nothing to the
output document. -/
theorem dateless_emitted_not_rendered
    (cur : Option String × Option String) (t0 t1 t2 t3 : Cell) (rest : List Cell)
    (hcur : cur.1 = none)
    (ts : String) (w : Option String) (menus : List Menu)
    (hall : ∀ m ∈ menus, pyFalsy m.md = true) :
    (∃ m, (processRow cur ⟨none, t0 :: t1 :: t2 :: t3 :: rest⟩).2 = some m ∧
      m.md = none) ∧
    generate_html ts w menus = generate_html ts w [] := by
  constructor
  · unfold processRow
    simp only [List.isEmpty_cons, Bool.false_and, if_neg Bool.false_ne_true]
    refine ⟨_, rfl, ?_⟩
    simp [updateDay, hcur]
  · exact generate_html_all_falsy ts w menus hall

/-- C7 witness: emission and render-equality evaluated at the concrete
date-less row and record. -/
theorem dateless_emitted_not_rendered_witness :
    (∃ m, (processRow (none, none)
        ⟨none, ⟨["점심"]⟩ :: ⟨["국수"]⟩ :: ⟨["김치"]⟩ :: ⟨["-"]⟩ :: []⟩).2 = some m ∧
      m.md = none) ∧
    generate_html "W" none [menuDateless] = generate_html "W" none [] :=
  dateless_emitted_not_rendered (none, none) ⟨["점심"]⟩ ⟨["국수"]⟩ ⟨["김치"]⟩ ⟨["-"]⟩ []
    rfl "W" none [menuDateless] (by decide)

/-- C9 counterexample: two invocations of the renderer on the identical
`(weekLabel, records)` pair but at different clock readings produce
different output texts — the embedded last-updated line depends on the
clock, so the renderer is not a pure function of the pair alone. -/
theorem generate_html_clock_counterexample :
    ¬ generate_html "2025-11-10 12:00" none [] =
      generate_html "9999-11-10 12:00" none [] := by
  intro h
  replace h := congrArg String.data h
  simp only [generate_html, dayKeys, groupKeys, sortKeys, dayTabsParts, dayPanelsParts,
    List.foldl, List.filter, List.map, List.flatten, joinLines, metaLine,
    String.data_append, List.append_assoc, List.append_right_inj] at h
  replace h := congrArg List.head? h
  simp at h

/-- C9 amended: the renderer is a pure function of the clock reading and
its `(weekLabel, records)` arguments — two invocations with the same
timestamp and the same pair produce identical output text. -/
theorem generate_html_pure_function (t1 t2 : String) (w1 w2 : Option String)
    (m1 m2 : List Menu) (ht : t1 = t2) (hw : w1 = w2) (hm : m1 = m2) :
    generate_html t1 w1 m1 = generate_html t2 w2 m2 := by
  rw [ht, hw, hm]

/-- C9 witness: purity evaluated at a concrete timestamp and input pair. -/
theorem generate_html_pure_function_witness :
    generate_html "2025-11-10 12:00" (some "11.10 ~ 11.16") [menuDateless] =
      generate_html "2025-11-10 12:00" (some "11.10 ~ 11.16") [menuDateless] :=
  generate_html_pure_function "2025-11-10 12:00" "2025-11-10 12:00"
    (some "11.10 ~ 11.16") (some "11.10 ~ 11.16") [menuDateless] [menuDateless]
    rfl rfl rfl
